import Mathlib

/-!
Verification development for the transcendence gateway-service repository.

The embedding covers:
* `VaultClient` and `loadEnvFromVault` (src/VaultClient.js): secret-store
  requests with retry, per-configuration-group loading with fallbacks;
* the Fastify gateway registration (src/index.ts): CORS / rate-limit
  configuration, the `/health` handler, and the http-proxy route table;
* the docker-entrypoint.sh wait loops.

Machine strings are modelled as Lean `String` (lists of characters); the
mutable `process.env` is modelled as an explicit record of optional
variables threaded through the loading functions.  External libraries
(@fastify/http-proxy, @fastify/rate-limit) and the missing
`SecretManager.js` are modelled from the spec; those definitions carry a
doc comment starting with `Modelled from the spec:`.
-/

namespace Gateway

/-- Boolean test that the character list `p` is an initial run of `s`. -/
def leadsWith : List Char → List Char → Bool
  | [], _ => true
  | _ :: _, [] => false
  | p :: ps, s :: ss => p == s && leadsWith ps ss

/-- `String.startsWith`, computed on the underlying character lists. -/
def sLeadsWith (p s : String) : Bool := leadsWith p.data s.data

/-- `String.endsWith`, computed on the reversed character lists. -/
def sTrailsWith (t s : String) : Bool := leadsWith t.data.reverse s.data.reverse

/-- Drop the first `n` characters of a string. -/
def sDrop (s : String) (n : Nat) : String := ⟨s.data.drop n⟩

/-- Drop the last character of a string. -/
def sDropLast (s : String) : String := ⟨s.data.dropLast⟩

/-- Length of a string in characters. -/
def sLen (s : String) : Nat := s.data.length

/-- Parse a maximal run of leading decimal digits; `none` when the first
character is not a digit (the accumulator starts as `none`). -/
def decDigits : List Char → Option Nat → Option Nat
  | [], acc => acc
  | c :: rest, acc =>
    if c.isDigit then decDigits rest (some ((acc.getD 0) * 10 + (c.toNat - 48)))
    else acc

/-- JavaScript `parseInt(s)`: skip leading spaces, optional sign, then a
maximal digit run; `none` models `NaN`. -/
def jsParseInt (s : String) : Option Int :=
  let l := s.data.dropWhile (fun c => c == ' ')
  match l with
  | '-' :: rest => (decDigits rest none).map (fun n => -(n : Int))
  | '+' :: rest => (decDigits rest none).map (fun n => (n : Int))
  | _ => (decDigits l none).map (fun n => (n : Int))

/-- JavaScript `x || d` on an optional string: `undefined` and `""` are
falsy and yield the default. -/
def jsOr (o : Option String) (d : String) : String :=
  match o with
  | some s => if s == "" then d else s
  | none => d

/-- JavaScript truthiness of an optional string value. -/
def jsTruthy : Option String → Bool
  | some s => !(s == "")
  | none => false

/-- JavaScript `parseInt(s) || d`: `NaN` (unparseable or absent) and `0`
are falsy and yield the default. -/
def jsParseIntOr (o : Option String) (d : Int) : Int :=
  match o.bind jsParseInt with
  | some n => if n == 0 then d else n
  | none => d

/-- Decimal digits of `n`, least significant first, with fuel. -/
def natDigitsRev (fuel : Nat) (n : Nat) : List Char :=
  match fuel with
  | 0 => []
  | fuel + 1 =>
    if n < 10 then [Char.ofNat (48 + n)]
    else Char.ofNat (48 + n % 10) :: natDigitsRev fuel (n / 10)

/-- Decimal rendering of a natural number. -/
def natToStr (n : Nat) : String := ⟨(natDigitsRev (n + 1) n).reverse⟩

/-- JavaScript `String(i)` for an integer value. -/
def intToStr (i : Int) : String :=
  match i with
  | .ofNat n => natToStr n
  | .negSucc n => "-" ++ natToStr (n + 1)

/-- The slice of `process.env` read or written by the gateway sources
(src/VaultClient.js and src/index.ts); `none` models an unset variable. -/
structure Env where
  DATABASE_URL : Option String := none
  AUTH_SERVICE_URL : Option String := none
  USER_SERVICE_URL : Option String := none
  GAME_SERVICE_URL : Option String := none
  GATEWAY_SERVICE_URL : Option String := none
  FRONT_SERVICE_URL : Option String := none
  VAULT_SERVICE_URL : Option String := none
  JWT_SECRET : Option String := none
  JWT_ALGORITHM : Option String := none
  JWT_EXPIRATION : Option String := none
  GITHUB_CLIENT_ID : Option String := none
  GITHUB_CLIENT_SECRET : Option String := none
  GITHUB_REDIRECT_URI : Option String := none
  INTRA_CLIENT_ID : Option String := none
  INTRA_CLIENT_SECRET : Option String := none
  INTRA_REDIRECT_URI : Option String := none
  GOOGLE_CLIENT_ID : Option String := none
  GOOGLE_CLIENT_SECRET : Option String := none
  CALLBACK_URL_BASE : Option String := none
  RATE_LIMIT_MAX : Option String := none
  RATE_LIMIT_WINDOW : Option String := none
  CORS_ORIGIN : Option String := none
  PORT : Option String := none
  deriving DecidableEq, Repr

/-- Effective auth upstream: `process.env.AUTH_SERVICE_URL || 'http://auth-service:3000'`
(src/index.ts line 159, also the /health handler line 139). -/
def effAuthUrl (e : Env) : String := jsOr e.AUTH_SERVICE_URL "http://auth-service:3000"

/-- Effective user upstream (src/index.ts line 167). -/
def effUserUrl (e : Env) : String := jsOr e.USER_SERVICE_URL "http://user-service:3001"

/-- Effective game upstream (src/index.ts line 175). -/
def effGameUrl (e : Env) : String := jsOr e.GAME_SERVICE_URL "http://game-service:3002"

/-- Effective front upstream (src/index.ts line 183). -/
def effFrontUrl (e : Env) : String := jsOr e.FRONT_SERVICE_URL "http://front-service:3004"

/-- Effective vault-service URL (src/index.ts line 143). -/
def effVaultUrl (e : Env) : String := jsOr e.VAULT_SERVICE_URL "http://vault-service:8300"

/-- Effective CORS origin: `process.env.CORS_ORIGIN || "*"` (src/index.ts line 15). -/
def effCorsOrigin (e : Env) : String := jsOr e.CORS_ORIGIN "*"

/-- Effective rate-limit maximum: `parseInt(process.env.RATE_LIMIT_MAX || "100")`
(src/index.ts line 22); `none` models `NaN`. -/
def effRateLimitMax (e : Env) : Option Int := jsParseInt (jsOr e.RATE_LIMIT_MAX "100")

/-- Effective rate-limit window: `parseInt(process.env.RATE_LIMIT_WINDOW || "60000")`
(src/index.ts line 23). -/
def effRateLimitWindow (e : Env) : Option Int := jsParseInt (jsOr e.RATE_LIMIT_WINDOW "60000")

/-- A parsed vault-service reply `{success: bool, error?: string, data?: ...}`
(the secret-store protocol consumed by src/VaultClient.js). -/
structure ApiResponse (α : Type) where
  success : Bool
  error : Option String := none
  data : α

/-- Outcome of one `makeRequest` call (src/VaultClient.js lines 307-350):
`Except.error` covers a connection error, a timeout, and a body that is
not valid JSON (rejected as `Invalid JSON response`). -/
def MakeRequest (α : Type) : Type := Except String (ApiResponse α)

/-- Map a `makeRequest` outcome to the calling method's outcome: a reply
with `success: false` is thrown as an error built from the reply's
`error` field (src/VaultClient.js lines 261-263, 287-289, 298-300). -/
def apiResult {α : Type} (what : String) (r : MakeRequest α) : Except String α :=
  match r with
  | .error e => .error e
  | .ok resp =>
    if resp.success then .ok resp.data
    else .error ("Failed to get " ++ what ++ ": " ++ (resp.error.getD "undefined"))

/-- `this.retryCount = config.retryCount || 5` (src/VaultClient.js line 224). -/
def vaultRetryCount : Nat := 5

/-- `this.timeout = config.timeout || 15000` (src/VaultClient.js line 223). -/
def vaultTimeoutMs : Nat := 15000

/-- Trace of one secret-store call: its final outcome, the number of
requests issued, and the sleeps (in milliseconds) performed between
consecutive attempts. -/
structure FetchTrace (α : Type) where
  result : Except String α
  attempts : Nat
  sleeps : List Nat

/-- The retry loop of `VaultClient.getSecret` (src/VaultClient.js lines
255-280), run over the per-attempt outcomes `outs` (outcome of attempt
`attempt`, then `attempt+1`, ...).  On a failed attempt strictly below
`rc = this.retryCount` it sleeps `1000 * attempt` ms and continues; the
last failure is rethrown after the loop. -/
def getSecretRun {α : Type} (rc : Nat) :
    List (Except String α) → Nat → List Nat → String → FetchTrace α
  | [], attempt, sleeps, lastErr => ⟨.error lastErr, attempt - 1, sleeps⟩
  | o :: rest, attempt, sleeps, _ =>
    match o with
    | .ok d => ⟨.ok d, attempt, sleeps⟩
    | .error e =>
      if attempt < rc then getSecretRun rc rest (attempt + 1) (sleeps ++ [1000 * attempt]) e
      else ⟨.error e, attempt, sleeps⟩

/-- `VaultClient.getSecret(path)` (src/VaultClient.js lines 255-280):
attempts `GET /api/secrets/{path}` for `attempt = 1 .. rc`, where
`mk attempt` is the outcome of the attempt's `makeRequest`. -/
def getSecret {α : Type} (mk : Nat → MakeRequest α) (rc : Nat) : FetchTrace α :=
  getSecretRun rc ((List.range rc).map (fun i => apiResult "secret" (mk (i + 1)))) 1 [] ""

/-- `VaultClient.getDatabaseConfig()` (src/VaultClient.js lines 285-291):
one single `makeRequest('/api/database/config')`, no loop, no sleep. -/
def getDatabaseConfigTrace {α : Type} (mk : MakeRequest α) : FetchTrace α :=
  { result := apiResult "database config" mk, attempts := 1, sleeps := [] }

/-- `VaultClient.getServiceUrls()` (src/VaultClient.js lines 296-302):
one single `makeRequest('/api/services/urls')`, no loop, no sleep. -/
def getServiceUrlsTrace {α : Type} (mk : MakeRequest α) : FetchTrace α :=
  { result := apiResult "service URLs" mk, attempts := 1, sleeps := [] }

/-- `waitForVault(maxRetries = 60)` (src/VaultClient.js lines 231-248)
probes `/health` up to 60 times; `health i` tells whether probe `i`
reports the store healthy.  Returns `true` when some probe within the
budget succeeds; the source throws after the 60th failure. -/
def waitForVault (health : Nat → Bool) : Bool :=
  (List.range 60).any health

/-- The database configuration group returned by `/api/database/config`
(fields interpolated in src/VaultClient.js line 378). -/
structure DbConfig where
  username : String
  password : String
  host : String
  port : String
  database : String
  deriving DecidableEq, Repr

/-- The service-URL group returned by `/api/services/urls`
(src/VaultClient.js lines 399-404); absent entries are `none`. -/
structure ServiceUrls where
  auth_service_url : Option String := none
  user_service_url : Option String := none
  game_service_url : Option String := none
  gateway_service_url : Option String := none
  deriving DecidableEq, Repr

/-- The JWT group returned by `/api/secrets/jwt` (src/VaultClient.js
lines 420-431). -/
structure JwtSecrets where
  secret : Option String := none
  algorithm : Option String := none
  expiration : Option String := none
  deriving DecidableEq, Repr

/-- The OAuth group returned by `/api/secrets/oauth` (src/VaultClient.js
lines 443-474). -/
structure OauthSecrets where
  github_client_id : Option String := none
  github_client_secret : Option String := none
  github_redirect_uri : Option String := none
  intra_client_id : Option String := none
  intra_client_secret : Option String := none
  intra_redirect_uri : Option String := none
  google_client_id : Option String := none
  google_client_secret : Option String := none
  callback_url_base : Option String := none
  deriving DecidableEq, Repr

/-- The API policy group returned by `/api/secrets/api`
(src/VaultClient.js lines 499-504). -/
structure ApiConfig where
  rate_limit_max : Option String := none
  rate_limit_window : Option String := none
  cors_origin : Option String := none
  deriving DecidableEq, Repr

/-- The interaction of one `loadEnvFromVault` run with the secret store:
the health-probe trace seen by `waitForVault`, the final outcome of each
group fetch (after the client's own retrying), and the string produced
by the secret generator when a JWT fallback is needed.

`genSecret` stands for the output of `SecretManager.generateSecureToken(32)`;
SecretManager.js is not part of this repository.  Modelled from the spec:
a required JWT secret is freshly generated, cryptographically random and
at least 32 characters — theorems about it carry the length bound as a
hypothesis. -/
structure VaultRun where
  health : Nat → Bool
  db : Except String DbConfig
  urls : Except String ServiceUrls
  jwt : Except String JwtSecrets
  oauth : Except String OauthSecrets
  api : Except String ApiConfig
  genSecret : String

/-- The hardcoded database fallback (src/VaultClient.js lines 391 and 538). -/
def dbFallbackUrl : String := "mysql://user:userSecure123!@db:3306/transcendence"

/-- The connection string built from the fetched database fields
(src/VaultClient.js line 378). -/
def dbUrlOf (c : DbConfig) : String :=
  "mysql://" ++ c.username ++ ":" ++ c.password ++ "@" ++ c.host ++ ":" ++ c.port
    ++ "/" ++ c.database

/-- Database group (src/VaultClient.js lines 374-392): on success build
the URL and validate its scheme, on any failure (fetch or validation)
overwrite `DATABASE_URL` with the hardcoded fallback. -/
def dbStep (db : Except String DbConfig) (env : Env) : Env :=
  match db with
  | .ok c =>
    let u := dbUrlOf c
    if sLeadsWith "mysql://" u then { env with DATABASE_URL := some u }
    else { env with DATABASE_URL := some dbFallbackUrl }
  | .error _ => { env with DATABASE_URL := some dbFallbackUrl }

/-- One entry of the `urlMap` loop (src/VaultClient.js lines 406-410):
assign the fetched URL only when it is present and starts with
`http://` or `https://`; otherwise keep the current value. -/
def assignUrl (current : Option String) (url : Option String) : Option String :=
  match url with
  | some u =>
    if sLeadsWith "http://" u || sLeadsWith "https://" u then some u else current
  | none => current

/-- Service-URL group (src/VaultClient.js lines 395-415): on success run
the `urlMap` validation loop over the four mapped variables; on failure
only warn — the environment is left unchanged. -/
def urlsStep (urls : Except String ServiceUrls) (env : Env) : Env :=
  match urls with
  | .ok u =>
    { env with
      AUTH_SERVICE_URL := assignUrl env.AUTH_SERVICE_URL u.auth_service_url
      USER_SERVICE_URL := assignUrl env.USER_SERVICE_URL u.user_service_url
      GAME_SERVICE_URL := assignUrl env.GAME_SERVICE_URL u.game_service_url
      GATEWAY_SERVICE_URL := assignUrl env.GATEWAY_SERVICE_URL u.gateway_service_url }
  | .error _ => env

/-- The JWT fallback assignment shared by the group catch
(src/VaultClient.js lines 432-439) and the outer catch (lines 552-557). -/
def jwtFallback (gen : String) (env : Env) : Env :=
  { env with
    JWT_SECRET := some gen
    JWT_ALGORITHM := some "HS256"
    JWT_EXPIRATION := some "24h" }

/-- JWT group, reached only for the auth-service identity
(src/VaultClient.js lines 418-439): a fetched secret shorter than 32
characters fails validation and falls to the generated secret. -/
def jwtStep (jwt : Except String JwtSecrets) (gen : String) (env : Env) : Env :=
  match jwt with
  | .ok j =>
    match j.secret with
    | some s =>
      if 32 ≤ sLen s then
        { env with
          JWT_SECRET := some s
          JWT_ALGORITHM := some (jsOr j.algorithm "HS256")
          JWT_EXPIRATION := some (jsOr j.expiration "24h") }
      else jwtFallback gen env
    | none => jwtFallback gen env
  | .error _ => jwtFallback gen env

/-- OAuth group, reached only for the auth-service identity
(src/VaultClient.js lines 442-494): each provider cluster is assigned
when its id is truthy; on fetch failure fallback clusters are installed
only for providers whose id is still unset. -/
def oauthStep (oauth : Except String OauthSecrets) (env : Env) : Env :=
  match oauth with
  | .ok o =>
    let e1 :=
      if jsTruthy o.github_client_id then
        { env with
          GITHUB_CLIENT_ID := some (o.github_client_id.getD "undefined")
          GITHUB_CLIENT_SECRET := some (o.github_client_secret.getD "undefined")
          GITHUB_REDIRECT_URI := some (o.github_redirect_uri.getD "undefined") }
      else env
    let e2 :=
      if jsTruthy o.intra_client_id then
        { e1 with
          INTRA_CLIENT_ID := some (o.intra_client_id.getD "undefined")
          INTRA_CLIENT_SECRET := some (o.intra_client_secret.getD "undefined")
          INTRA_REDIRECT_URI := some (o.intra_redirect_uri.getD "undefined") }
      else e1
    let e3 :=
      if jsTruthy o.google_client_id then
        { e2 with
          GOOGLE_CLIENT_ID := some (o.google_client_id.getD "undefined")
          GOOGLE_CLIENT_SECRET := some (o.google_client_secret.getD "undefined") }
      else e2
    if jsTruthy o.callback_url_base then
      { e3 with CALLBACK_URL_BASE := some (o.callback_url_base.getD "undefined") }
    else e3
  | .error _ =>
    let e1 :=
      if jsTruthy env.GITHUB_CLIENT_ID then env
      else
        { env with
          GITHUB_CLIENT_ID := some "fallback-github-client-id"
          GITHUB_CLIENT_SECRET := some "fallback-github-client-secret"
          GITHUB_REDIRECT_URI := some "https://localhost/oauth/github/callback" }
    if jsTruthy e1.INTRA_CLIENT_ID then e1
    else
      { e1 with
        INTRA_CLIENT_ID := some "fallback-intra-client-id"
        INTRA_CLIENT_SECRET := some "fallback-intra-client-secret"
        INTRA_REDIRECT_URI := some "https://localhost/oauth/42/callback" }

/-- API policy group (src/VaultClient.js lines 498-514): on success apply
`String(parseInt(x) || default)` to the rate-limit fields and `|| '*'`
to the CORS origin; on failure install the development fallbacks. -/
def apiStep (api : Except String ApiConfig) (env : Env) : Env :=
  match api with
  | .ok a =>
    { env with
      RATE_LIMIT_MAX := some (intToStr (jsParseIntOr a.rate_limit_max 1000))
      RATE_LIMIT_WINDOW := some (intToStr (jsParseIntOr a.rate_limit_window 60000))
      CORS_ORIGIN := some (jsOr a.cors_origin "*") }
  | .error _ =>
    { env with
      RATE_LIMIT_MAX := some "1000"
      RATE_LIMIT_WINDOW := some "60000"
      CORS_ORIGIN := some "*" }

/-- The per-service port table (src/VaultClient.js lines 517-522 and
542-547). -/
def portMap (serviceName : String) : Option String :=
  if serviceName == "auth-service" then some "3000"
  else if serviceName == "user-service" then some "3001"
  else if serviceName == "game-service" then some "3002"
  else if serviceName == "gateway-service" then some "3003"
  else none

/-- Port assignment on the success path (src/VaultClient.js lines
524-526): set only when the service is in the table. -/
def portStep (serviceName : String) (env : Env) : Env :=
  match portMap serviceName with
  | some p => { env with PORT := some p }
  | none => env

/-- The outer catch of `loadEnvFromVault` (src/VaultClient.js lines
531-561), reached when `waitForVault` exhausts its probes: set
`DATABASE_URL`, `PORT` and (for auth-service) the JWT fallback, each
only when still unset, and return `false` instead of rethrowing. -/
def outerCatchStep (serviceName : String) (gen : String) (env : Env) : Env :=
  let e1 :=
    match env.DATABASE_URL with
    | some _ => env
    | none => { env with DATABASE_URL := some dbFallbackUrl }
  let e2 :=
    match e1.PORT with
    | some _ => e1
    | none => { e1 with PORT := some (jsOr (portMap serviceName) "3000") }
  if serviceName == "auth-service" && !(jsTruthy e2.JWT_SECRET) then
    jwtFallback gen e2
  else e2

/-- Result of one `loadEnvFromVault` run: the final environment, the
returned boolean (`true` from the success path, `false` from the outer
catch — the function never throws), and the group fetches that were
issued, in order. -/
structure LoadResult where
  env : Env
  ok : Bool
  fetches : List String
  deriving Repr

/-- `loadEnvFromVault(serviceName)` (src/VaultClient.js lines 366-562):
wait for the store, then resolve the groups in order — database, service
URLs, (auth-service only) JWT and OAuth, API policy, port — each in its
own try/catch; if the store never becomes healthy the outer catch
installs the critical fallbacks and returns `false`. -/
def loadEnvFromVault (serviceName : String) (run : VaultRun) (env : Env) : LoadResult :=
  if waitForVault run.health then
    let env1 := dbStep run.db env
    let env2 := urlsStep run.urls env1
    let authOnly := serviceName == "auth-service"
    let env3 :=
      if authOnly then oauthStep run.oauth (jwtStep run.jwt run.genSecret env2)
      else env2
    let env4 := apiStep run.api env3
    let env5 := portStep serviceName env4
    { env := env5
      ok := true
      fetches :=
        ["database/config", "services/urls"]
          ++ (if authOnly then ["secrets/jwt", "secrets/oauth"] else [])
          ++ ["secrets/api"] }
  else
    { env := outerCatchStep serviceName run.genSecret env
      ok := false
      fetches := [] }

/-- One `@fastify/http-proxy` registration: the route prefix `pfx`, the
upstream base URL, and the rewrite target `rewritePfx`. -/
structure RouteEntry where
  pfx : String
  upstream : String
  rewritePfx : String
  deriving DecidableEq, Repr

/-- The ten proxy registrations of src/index.ts lines 158-235, in
registration order, with each upstream read as
`process.env.X || default`. -/
def routeTable (e : Env) : List RouteEntry :=
  [ ⟨"/auth", effAuthUrl e, "/"⟩,
    ⟨"/users", effUserUrl e, "/"⟩,
    ⟨"/games", effGameUrl e, "/"⟩,
    ⟨"/app", effFrontUrl e, "/"⟩,
    ⟨"/@vite", effFrontUrl e, "/@vite"⟩,
    ⟨"/src", effFrontUrl e, "/src"⟩,
    ⟨"/vite.svg", effFrontUrl e, "/vite.svg"⟩,
    ⟨"/node_modules", effFrontUrl e, "/node_modules"⟩,
    ⟨"/@id", effFrontUrl e, "/@id"⟩,
    ⟨"/assets", effFrontUrl e, "/assets"⟩ ]

/-- Modelled from the spec: the Fastify router matches a registered
route prefix only on path-segment boundaries ("prevents `/auth2`
matching prefix `/auth`"): the prefix is followed by nothing or by a
`/`. -/
def segAligned (p path : String) : Bool :=
  sLeadsWith p path && (sLen path == sLen p || sLeadsWith "/" (sDrop path (sLen p)))

/-- One step of route selection: keep the aligned entry with the longest
prefix seen so far. -/
def pickRoute (path : String) (best : Option RouteEntry) (ent : RouteEntry) : Option RouteEntry :=
  if segAligned ent.pfx path then
    match best with
    | none => some ent
    | some b => if sLen b.pfx < sLen ent.pfx then some ent else some b
  else best

/-- Modelled from the spec: route selection picks the entry whose prefix
is the longest path-segment-aligned prefix of the request path; `none`
is `RouteNotFound`. -/
def matchRoute (table : List RouteEntry) (path : String) : Option RouteEntry :=
  table.foldl (pickRoute path) none

/-- Modelled from the spec: `@fastify/http-proxy` path rewriting replaces
the matched prefix with `rewritePfx`, preserving the remainder; the
spec's scenario `/auth/login` with rewrite `/` reaching the upstream as
`/login` fixes the join — a duplicated slash at the boundary collapses. -/
def rewritePath (pfx rewritePfx path : String) : String :=
  let remainder := sDrop path (sLen pfx)
  if sTrailsWith "/" rewritePfx && sLeadsWith "/" remainder then
    sDropLast rewritePfx ++ remainder
  else rewritePfx ++ remainder

/-- An inbound HTTP request as the proxy layer sees it: method, path,
query string and body bytes. -/
structure HttpRequest where
  method : String
  path : String
  query : Option String := none
  body : List Nat := []
  deriving DecidableEq, Repr

/-- The request as it reaches the chosen upstream. -/
structure ForwardedRequest where
  upstream : String
  method : String
  path : String
  query : Option String := none
  body : List Nat := []
  deriving DecidableEq, Repr

/-- Forward an admitted request along a matched route entry: the path is
rewritten, the query string, method and body pass through unchanged. -/
def forward (ent : RouteEntry) (req : HttpRequest) : ForwardedRequest :=
  { upstream := ent.upstream
    method := req.method
    path := rewritePath ent.pfx ent.rewritePfx req.path
    query := req.query
    body := req.body }

/-- Route an inbound request through the table: `none` is `RouteNotFound`. -/
def proxyForward (table : List RouteEntry) (req : HttpRequest) : Option ForwardedRequest :=
  (matchRoute table req.path).map (fun ent => forward ent req)

/-- Per-key rate-limit bookkeeping: the window the key was last seen in
and the number of requests counted inside it. -/
structure RateState where
  window : Nat
  count : Nat
  deriving DecidableEq, Repr

/-- The per-client-key store of rate-limit states. -/
abbrev RateStore : Type := String → Option RateState

/-- Modelled from the spec: the fixed-window admission rule of the
`@fastify/rate-limit` registration (src/index.ts lines 21-24).  The
current window is `now / windowMs`; a stored state from another window
is reset; the count is incremented; the request is admitted exactly when
the new count does not exceed `maxReq`. -/
def rlAdmit (maxReq windowMs now : Nat) (st : Option RateState) : Bool × RateState :=
  let cur := now / windowMs
  let base : RateState :=
    match st with
    | some s => if s.window == cur then s else ⟨cur, 0⟩
    | none => ⟨cur, 0⟩
  let c := base.count + 1
  (decide (c ≤ maxReq), ⟨cur, c⟩)

/-- One admission decision for `key` at time `now`, updating only that
key's entry of the store. -/
def rlStep (maxReq windowMs : Nat) (key : String) (now : Nat) (store : RateStore) :
    Bool × RateStore :=
  let (adm, s) := rlAdmit maxReq windowMs now (store key)
  (adm, fun k => if k == key then some s else store k)

/-- Run a sequence of same-key requests (their timestamps) through the
rate limiter, collecting the admission decisions. -/
def rlRun (maxReq windowMs : Nat) (key : String) :
    List Nat → RateStore → List Bool × RateStore
  | [], store => ([], store)
  | t :: ts, store =>
    let (adm, store1) := rlStep maxReq windowMs key t store
    let (res, store2) := rlRun maxReq windowMs key ts store1
    (adm :: res, store2)

/-- What the gateway does with one inbound request. -/
inductive GatewayOutcome where
  | forwarded (fw : ForwardedRequest)
  | limited (status : Nat)
  | notFound
  deriving DecidableEq, Repr

/-- Admission then routing: a rejected request is answered `429` and is
never forwarded; an admitted request is matched against the route table
and forwarded. -/
def handleRequest (maxReq windowMs now : Nat) (key : String) (store : RateStore)
    (table : List RouteEntry) (req : HttpRequest) : GatewayOutcome × RateStore :=
  let (adm, store1) := rlStep maxReq windowMs key now store
  if adm then
    match proxyForward table req with
    | some fw => (.forwarded fw, store1)
    | none => (.notFound, store1)
  else (.limited 429, store1)

/-- The reply of `GET /health` (src/index.ts lines 136-151). -/
structure HealthReply where
  status : String
  gatewayStatus : String
  gatewayTimestamp : String
  authUrl : String
  userUrl : String
  gameUrl : String
  frontUrl : String
  vaultUrl : String
  timestamp : String
  deriving DecidableEq, Repr

/-- The `GET /health` handler (src/index.ts lines 136-151): rebuilt on
every call from the current environment and the call's clock reading.
`_storeUp` carries the actual reachability of the secret store at call
time; the handler performs no I/O, so the reply cannot depend on it. -/
def healthHandler (e : Env) (now : String) (_storeUp : Bool) : HealthReply :=
  { status := "healthy"
    gatewayStatus := "healthy"
    gatewayTimestamp := now
    authUrl := effAuthUrl e
    userUrl := effUserUrl e
    gameUrl := effGameUrl e
    frontUrl := effFrontUrl e
    vaultUrl := effVaultUrl e
    timestamp := now }

/-- The vault-service wait of docker-entrypoint.sh (src/unnamed/part_001
lines 101-108): `for i in {1..60}` curl probes with `sleep 2`, breaking
on the first success; after the 60th failure the script proceeds anyway.
Returns the number of probes issued and whether the store was seen up. -/
def vaultEntryWait (up : Nat → Bool) : Nat × Bool :=
  match (List.range 60).findIdx? (fun i => up i) with
  | some i => (i + 1, true)
  | none => (60, false)

/-- The backend wait loops of docker-entrypoint.sh (src/unnamed/part_001
lines 186-199): `while ! nc -z <service> <port>; do sleep 2; done`.  The
loop has no attempt bound, so its execution is observed through a fuel
cutoff: `some k` means the loop exited after `k` probes, `none` means it
is still probing after `fuel` probes. -/
def ncWaitFrom (up : Nat → Bool) : Nat → Nat → Option Nat
  | _, 0 => none
  | i, fuel + 1 => if up i then some (i + 1) else ncWaitFrom up (i + 1) fuel

/-- Probes of one `nc` wait loop observed up to `fuel` attempts. -/
def ncWait (up : Nat → Bool) (fuel : Nat) : Option Nat := ncWaitFrom up 0 fuel

/-- A fresh process environment with no variable set. -/
def emptyEnv : Env := {}

/-- A run against a healthy store whose every group fetch fails (for
example the vault-service accepts connections but each data request is
refused). -/
def failRun : VaultRun :=
  { health := fun _ => true
    db := .error "connect ECONNREFUSED"
    urls := .error "connect ECONNREFUSED"
    jwt := .error "connect ECONNREFUSED"
    oauth := .error "connect ECONNREFUSED"
    api := .error "connect ECONNREFUSED"
    genSecret := "R4nd0mR4nd0mR4nd0mR4nd0mR4nd0m32" }

/-- A run against a store that never becomes healthy: `waitForVault`
exhausts its 60 probes and throws into the outer catch. -/
def deadRun : VaultRun :=
  { health := fun _ => false
    db := .error "unreachable"
    urls := .error "unreachable"
    jwt := .error "unreachable"
    oauth := .error "unreachable"
    api := .error "unreachable"
    genSecret := "R4nd0mR4nd0mR4nd0mR4nd0mR4nd0m32" }

/-- A run whose store is healthy and returns a 10-character JWT secret. -/
def shortJwtRun : VaultRun :=
  { health := fun _ => true
    db := .error "connect ECONNREFUSED"
    urls := .error "connect ECONNREFUSED"
    jwt := .ok { secret := some "short10sec", algorithm := some "HS256", expiration := some "24h" }
    oauth := .error "connect ECONNREFUSED"
    api := .error "connect ECONNREFUSED"
    genSecret := "R4nd0mR4nd0mR4nd0mR4nd0mR4nd0m32" }

/-! Lemmas about the `getSecret` retry loop. -/

/-- When every remaining attempt fails, the loop runs to the retry bound
and the sleeps performed are `1000 * i` for each failed attempt `i`
strictly below the bound. -/
theorem getSecretRun_all_err {α : Type} (rc : Nat) :
    ∀ (outs : List (Except String α)) (attempt : Nat) (sleeps : List Nat) (lastErr : String),
      (∀ o ∈ outs, ∃ e, o = .error e) →
      attempt + outs.length = rc + 1 → 1 ≤ attempt →
      (getSecretRun rc outs attempt sleeps lastErr).attempts = rc ∧
      (getSecretRun rc outs attempt sleeps lastErr).sleeps
        = sleeps ++ (List.range' attempt (rc - attempt)).map (fun i => 1000 * i) := by
  intro outs
  induction outs with
  | nil =>
    intro attempt sleeps lastErr _ hlen hone
    simp only [List.length_nil, Nat.add_zero] at hlen
    subst hlen
    simp [getSecretRun]
  | cons o rest ih =>
    intro attempt sleeps lastErr herr hlen hone
    obtain ⟨e, rfl⟩ := herr o (List.mem_cons_self o rest)
    simp only [List.length_cons] at hlen
    by_cases hlt : attempt < rc
    · have hrec := ih (attempt + 1) (sleeps ++ [1000 * attempt]) e
        (fun o ho => herr o (List.mem_cons_of_mem _ ho)) (by omega) (by omega)
      simp only [getSecretRun, hlt, if_true]
      refine ⟨hrec.1, ?_⟩
      rw [hrec.2, List.append_assoc]
      have hsplit : rc - attempt = (rc - (attempt + 1)) + 1 := by omega
      rw [hsplit, List.range'_succ]
      simp
    · have hceil : attempt = rc := by omega
      simp [getSecretRun, hlt, hceil]

/-- When every attempt fails with one and the same error, the loop
returns that error after exactly `rc` attempts (for `rc ≥ 1`). -/
theorem getSecretRun_const_err {α : Type} (rc : Nat) (msg : String) :
    ∀ (n attempt : Nat) (sleeps : List Nat) (lastErr : String),
      attempt + n = rc + 1 → 1 ≤ attempt →
      getSecretRun rc (List.replicate n (Except.error msg : Except String α)) attempt sleeps lastErr
        = ⟨.error (if n = 0 then lastErr else msg), rc,
            sleeps ++ (List.range' attempt (rc - attempt)).map (fun i => 1000 * i)⟩ := by
  intro n
  induction n with
  | zero =>
    intro attempt sleeps lastErr hlen hone
    have : attempt = rc + 1 := by omega
    subst this
    simp [getSecretRun]
  | succ m ih =>
    intro attempt sleeps lastErr hlen hone
    rw [List.replicate_succ]
    by_cases hlt : attempt < rc
    · have hrec := ih (attempt + 1) (sleeps ++ [1000 * attempt]) msg (by omega) (by omega)
      simp only [getSecretRun, hlt, if_true]
      rw [hrec]
      have hmsg : (if m = 0 then msg else msg) = msg := by simp
      rw [hmsg, List.append_assoc]
      have hsplit : rc - attempt = (rc - (attempt + 1)) + 1 := by omega
      rw [hsplit, List.range'_succ]
      simp
    · have hceil : attempt = rc := by omega
      simp [getSecretRun, hlt, hceil]

/-- C5 (amended): only the `getSecret`-based groups (JWT, OAuth, API
policy) retry: with a store failing every attempt, `getSecret` issues
exactly `rc` requests, sleeping `1000 * i` ms after the `i`-th failed
attempt (linear backoff); `getDatabaseConfig` and `getServiceUrls`
issue exactly one request each, with no retry and no sleep. -/
theorem secret_fetch_retry_linear_backoff {α : Type} (mk : Nat → MakeRequest α) (rc : Nat)
    (dbm : MakeRequest DbConfig) (um : MakeRequest ServiceUrls)
    (hfail : ∀ i, ∃ e, apiResult "secret" (mk i) = .error e) :
    (getSecret mk rc).attempts = rc ∧
    (getSecret mk rc).sleeps = (List.range' 1 (rc - 1)).map (fun i => 1000 * i) ∧
    (getDatabaseConfigTrace dbm).attempts = 1 ∧
    (getDatabaseConfigTrace dbm).sleeps = [] ∧
    (getServiceUrlsTrace um).attempts = 1 ∧
    (getServiceUrlsTrace um).sleeps = [] := by
  have h := getSecretRun_all_err rc
    ((List.range rc).map (fun i => apiResult "secret" (mk (i + 1)))) 1 [] ""
    (by
      intro o ho
      rw [List.mem_map] at ho
      obtain ⟨a, _, rfl⟩ := ho
      exact hfail (a + 1))
    (by simp [Nat.add_comm]) (by omega)
  refine ⟨h.1, ?_, rfl, rfl, rfl, rfl⟩
  rw [getSecret] at *
  rw [h.2]
  simp

/-- C5 counterexample: against a store refusing connections, the
database and service-URL groups are fetched with a single request each —
not `retryCount` (5) attempts with backoff as claimed. -/
theorem db_and_urls_groups_never_retry :
    (getDatabaseConfigTrace (Except.error "connect ECONNREFUSED" : MakeRequest DbConfig)).attempts = 1 ∧
    (getDatabaseConfigTrace (Except.error "connect ECONNREFUSED" : MakeRequest DbConfig)).sleeps = [] ∧
    (getServiceUrlsTrace (Except.error "connect ECONNREFUSED" : MakeRequest ServiceUrls)).attempts = 1 ∧
    (getServiceUrlsTrace (Except.error "connect ECONNREFUSED" : MakeRequest ServiceUrls)).sleeps = [] ∧
    ¬ (1 : Nat) = vaultRetryCount := by
  refine ⟨rfl, rfl, rfl, rfl, by decide⟩

/-- Witness for the amended retry statement at the source defaults:
retryCount 5 gives five attempts and the linear sleeps 1s, 2s, 3s, 4s. -/
theorem secret_fetch_retry_linear_backoff_witness :
    (getSecret (fun _ => (Except.error "connect ECONNREFUSED" : MakeRequest JwtSecrets)) vaultRetryCount).attempts = vaultRetryCount ∧
    (getSecret (fun _ => (Except.error "connect ECONNREFUSED" : MakeRequest JwtSecrets)) vaultRetryCount).sleeps = [1000, 2000, 3000, 4000] ∧
    (getDatabaseConfigTrace (Except.error "connect ECONNREFUSED" : MakeRequest DbConfig)).attempts = 1 := by
  have h := secret_fetch_retry_linear_backoff
    (fun _ => (Except.error "connect ECONNREFUSED" : MakeRequest JwtSecrets)) vaultRetryCount
    (Except.error "connect ECONNREFUSED") (Except.error "connect ECONNREFUSED")
    (fun i => ⟨"connect ECONNREFUSED", rfl⟩)
  refine ⟨h.1, ?_, h.2.2.1⟩
  rw [h.2.1]
  decide

/-- C6 counterexample: a response whose body cannot be parsed as JSON is
rejected as `Invalid JSON response` — and the retry loop retries it like
any other failure: all five attempts are made, not one. -/
theorem invalid_response_is_retried :
    (getSecret (fun _ => (Except.error "Invalid JSON response: <html>" : MakeRequest JwtSecrets)) vaultRetryCount).attempts = vaultRetryCount ∧
    ¬ (getSecret (fun _ => (Except.error "Invalid JSON response: <html>" : MakeRequest JwtSecrets)) vaultRetryCount).attempts = 1 := by
  decide

/-- C6 (amended): an unparseable store response fails the attempt with
the invalid-JSON error, but it IS retried like any other failure: with
retry bound `rc ≥ 1` the loop makes exactly `rc` attempts and only then
fails the call permanently with that same error. -/
theorem invalid_response_retried_to_exhaustion (rc : Nat) (body : String) (hrc : 1 ≤ rc) :
    (getSecret (fun _ => (Except.error ("Invalid JSON response: " ++ body) : MakeRequest JwtSecrets)) rc).attempts = rc ∧
    (getSecret (fun _ => (Except.error ("Invalid JSON response: " ++ body) : MakeRequest JwtSecrets)) rc).result
      = .error ("Invalid JSON response: " ++ body) := by
  have hmap : (List.range rc).map
      (fun i => apiResult "secret" ((fun _ => (Except.error ("Invalid JSON response: " ++ body) : MakeRequest JwtSecrets)) (i + 1)))
      = List.replicate rc (Except.error ("Invalid JSON response: " ++ body) : Except String JwtSecrets) := by
    simp [apiResult, List.map_const', List.length_range]
  have h := @getSecretRun_const_err JwtSecrets rc ("Invalid JSON response: " ++ body)
    rc 1 [] "" (by omega) (by omega)
  have hzero : ¬ rc = 0 := by omega
  simp only [getSecret]
  rw [hmap, h]
  simp [hzero]

/-! Route matching. -/

/-- Any entry selected by the route fold has a path-segment-aligned
prefix of the path, provided the accumulator already satisfies this. -/
theorem pickRoute_foldl_aligned (path : String) :
    ∀ (table : List RouteEntry) (acc : Option RouteEntry),
      (∀ b, acc = some b → segAligned b.pfx path = true) →
      ∀ ent, table.foldl (pickRoute path) acc = some ent → segAligned ent.pfx path = true := by
  intro table
  induction table with
  | nil =>
    intro acc hacc ent h
    exact hacc ent h
  | cons e rest ih =>
    intro acc hacc ent h
    rw [List.foldl_cons] at h
    refine ih (pickRoute path acc e) ?_ ent h
    intro b hb
    rw [pickRoute.eq_def] at hb
    by_cases hseg : segAligned e.pfx path
    · rw [if_pos hseg] at hb
      cases acc with
      | none =>
        rw [Option.some_inj] at hb
        rw [← hb]
        exact hseg
      | some a =>
        by_cases hlt : sLen a.pfx < sLen e.pfx
        · simp only [hlt, if_true] at hb
          rw [Option.some_inj] at hb
          rw [← hb]
          exact hseg
        · simp only [hlt, if_false] at hb
          rw [Option.some_inj] at hb
          rw [← hb]
          exact hacc a rfl
    · rw [if_neg hseg] at hb
      exact hacc b hb

/-- The matched entry's prefix is a segment-aligned prefix of the path. -/
theorem matchRoute_aligned (table : List RouteEntry) (path : String) (ent : RouteEntry)
    (h : matchRoute table path = some ent) : segAligned ent.pfx path = true :=
  pickRoute_foldl_aligned path table none (fun b hb => by cases hb) ent h

/-- C1: a request whose path matches a registered route prefix is
forwarded to that entry's upstream with the path rewritten by replacing
the matched prefix with the entry's rewrite prefix; the remainder, the
query string, the method and the body all pass through unchanged, and
the matched prefix really is a prefix of the request path. -/
theorem matched_route_forwards_with_rewrite (e : Env) (req : HttpRequest) (ent : RouteEntry)
    (h : matchRoute (routeTable e) req.path = some ent) :
    proxyForward (routeTable e) req =
      some { upstream := ent.upstream, method := req.method,
             path := rewritePath ent.pfx ent.rewritePfx req.path,
             query := req.query, body := req.body } ∧
    sLeadsWith ent.pfx req.path = true := by
  constructor
  · simp [proxyForward, h, forward]
  · have haligned := matchRoute_aligned (routeTable e) req.path ent h
    rw [segAligned, Bool.and_eq_true] at haligned
    exact haligned.1

/-- Witness: the spec scenario — `GET /auth/login?x=1` under prefix
`/auth` with rewrite `/` reaches the auth upstream as `GET /login?x=1`
with the body bytes unchanged. -/
theorem matched_route_forwards_with_rewrite_witness :
    proxyForward (routeTable emptyEnv)
        { method := "GET", path := "/auth/login", query := some "x=1", body := [104, 105] } =
      some { upstream := "http://auth-service:3000", method := "GET", path := "/login",
             query := some "x=1", body := [104, 105] } ∧
    sLeadsWith "/auth" "/auth/login" = true := by
  have h := matched_route_forwards_with_rewrite emptyEnv
    { method := "GET", path := "/auth/login", query := some "x=1", body := [104, 105] }
    ⟨"/auth", "http://auth-service:3000", "/"⟩ (by decide)
  refine ⟨?_, h.2⟩
  rw [h.1]
  decide

/-! Frame lemmas: which environment variables each loading step leaves
untouched. -/

/-- The database step writes only `DATABASE_URL`. -/
theorem dbStep_frame (d : Except String DbConfig) (env : Env) :
    (dbStep d env).AUTH_SERVICE_URL = env.AUTH_SERVICE_URL ∧
    (dbStep d env).USER_SERVICE_URL = env.USER_SERVICE_URL ∧
    (dbStep d env).GAME_SERVICE_URL = env.GAME_SERVICE_URL ∧
    (dbStep d env).GATEWAY_SERVICE_URL = env.GATEWAY_SERVICE_URL ∧
    (dbStep d env).FRONT_SERVICE_URL = env.FRONT_SERVICE_URL ∧
    (dbStep d env).JWT_SECRET = env.JWT_SECRET := by
  cases d with
  | ok c =>
    simp only [dbStep]
    split <;> simp
  | error e => simp [dbStep]

/-- The service-URL step writes only the four mapped URL variables. -/
theorem urlsStep_frame (u : Except String ServiceUrls) (env : Env) :
    (urlsStep u env).FRONT_SERVICE_URL = env.FRONT_SERVICE_URL ∧
    (urlsStep u env).JWT_SECRET = env.JWT_SECRET := by
  cases u <;> simp [urlsStep]

/-- The OAuth step never writes JWT material. -/
theorem oauthStep_frame (o : Except String OauthSecrets) (env : Env) :
    (oauthStep o env).JWT_SECRET = env.JWT_SECRET := by
  cases o with
  | ok v =>
    simp only [oauthStep]
    split <;> split <;> split <;> split <;> simp
  | error e =>
    simp only [oauthStep]
    split <;> split <;> simp

/-- The API policy step writes only the rate-limit and CORS variables. -/
theorem apiStep_frame (a : Except String ApiConfig) (env : Env) :
    (apiStep a env).AUTH_SERVICE_URL = env.AUTH_SERVICE_URL ∧
    (apiStep a env).USER_SERVICE_URL = env.USER_SERVICE_URL ∧
    (apiStep a env).GAME_SERVICE_URL = env.GAME_SERVICE_URL ∧
    (apiStep a env).GATEWAY_SERVICE_URL = env.GATEWAY_SERVICE_URL ∧
    (apiStep a env).FRONT_SERVICE_URL = env.FRONT_SERVICE_URL ∧
    (apiStep a env).JWT_SECRET = env.JWT_SECRET := by
  cases a <;> simp [apiStep]

/-- The port step writes only `PORT`. -/
theorem portStep_frame (sn : String) (env : Env) :
    (portStep sn env).AUTH_SERVICE_URL = env.AUTH_SERVICE_URL ∧
    (portStep sn env).USER_SERVICE_URL = env.USER_SERVICE_URL ∧
    (portStep sn env).GAME_SERVICE_URL = env.GAME_SERVICE_URL ∧
    (portStep sn env).GATEWAY_SERVICE_URL = env.GATEWAY_SERVICE_URL ∧
    (portStep sn env).FRONT_SERVICE_URL = env.FRONT_SERVICE_URL ∧
    (portStep sn env).JWT_SECRET = env.JWT_SECRET := by
  cases h : portMap sn <;> simp [portStep, h]

/-- C3: with a healthy store whose per-group fetches all fail, the
resolver still returns from its success path and the resolved
configuration equals the documented fallbacks exactly: the hardcoded
database URL, `http://service-name:port` for every upstream consumed by
the gateway, CORS `*`, rate limit 1000 per 60000 ms window, port 3003,
no JWT material for the gateway identity (which skips that group), and
for the auth identity the generated JWT secret and the fallback OAuth
clusters. -/
theorem group_failures_resolve_to_fallbacks (run : VaultRun) (e1 e2 e3 e4 e5 : String)
    (hav : waitForVault run.health = true)
    (hdb : run.db = .error e1) (hurls : run.urls = .error e2) (hapi : run.api = .error e3)
    (hjwt : run.jwt = .error e4) (hoauth : run.oauth = .error e5) :
    (loadEnvFromVault "gateway-service" run emptyEnv).ok = true ∧
    (loadEnvFromVault "gateway-service" run emptyEnv).env.DATABASE_URL = some dbFallbackUrl ∧
    effAuthUrl (loadEnvFromVault "gateway-service" run emptyEnv).env = "http://auth-service:3000" ∧
    effUserUrl (loadEnvFromVault "gateway-service" run emptyEnv).env = "http://user-service:3001" ∧
    effGameUrl (loadEnvFromVault "gateway-service" run emptyEnv).env = "http://game-service:3002" ∧
    effFrontUrl (loadEnvFromVault "gateway-service" run emptyEnv).env = "http://front-service:3004" ∧
    (loadEnvFromVault "gateway-service" run emptyEnv).env.RATE_LIMIT_MAX = some "1000" ∧
    (loadEnvFromVault "gateway-service" run emptyEnv).env.RATE_LIMIT_WINDOW = some "60000" ∧
    (loadEnvFromVault "gateway-service" run emptyEnv).env.CORS_ORIGIN = some "*" ∧
    effCorsOrigin (loadEnvFromVault "gateway-service" run emptyEnv).env = "*" ∧
    effRateLimitMax (loadEnvFromVault "gateway-service" run emptyEnv).env = some 1000 ∧
    (loadEnvFromVault "gateway-service" run emptyEnv).env.PORT = some "3003" ∧
    (loadEnvFromVault "gateway-service" run emptyEnv).env.JWT_SECRET = none ∧
    (loadEnvFromVault "auth-service" run emptyEnv).ok = true ∧
    (loadEnvFromVault "auth-service" run emptyEnv).env.JWT_SECRET = some run.genSecret ∧
    (loadEnvFromVault "auth-service" run emptyEnv).env.GITHUB_CLIENT_ID
      = some "fallback-github-client-id" ∧
    (loadEnvFromVault "auth-service" run emptyEnv).env.INTRA_CLIENT_ID
      = some "fallback-intra-client-id" := by
  simp only [loadEnvFromVault]
  rw [hav, hdb, hurls, hapi, hjwt, hoauth]
  simp [dbStep, urlsStep, apiStep, portStep, portMap, emptyEnv, effAuthUrl, effUserUrl,
        effGameUrl, effFrontUrl, effCorsOrigin, effRateLimitMax, jsOr, jsParseInt, decDigits,
        jsParseIntOr, intToStr, natToStr, natDigitsRev, dbFallbackUrl, jwtStep, jwtFallback,
        oauthStep, jsTruthy]

/-- Witness for the fallback statement: the connection-refused run. -/
theorem group_failures_resolve_to_fallbacks_witness :
    (loadEnvFromVault "gateway-service" failRun emptyEnv).ok = true ∧
    (loadEnvFromVault "gateway-service" failRun emptyEnv).env.DATABASE_URL = some dbFallbackUrl ∧
    effAuthUrl (loadEnvFromVault "gateway-service" failRun emptyEnv).env = "http://auth-service:3000" ∧
    effUserUrl (loadEnvFromVault "gateway-service" failRun emptyEnv).env = "http://user-service:3001" ∧
    effGameUrl (loadEnvFromVault "gateway-service" failRun emptyEnv).env = "http://game-service:3002" ∧
    effFrontUrl (loadEnvFromVault "gateway-service" failRun emptyEnv).env = "http://front-service:3004" ∧
    (loadEnvFromVault "gateway-service" failRun emptyEnv).env.RATE_LIMIT_MAX = some "1000" ∧
    (loadEnvFromVault "gateway-service" failRun emptyEnv).env.RATE_LIMIT_WINDOW = some "60000" ∧
    (loadEnvFromVault "gateway-service" failRun emptyEnv).env.CORS_ORIGIN = some "*" ∧
    effCorsOrigin (loadEnvFromVault "gateway-service" failRun emptyEnv).env = "*" ∧
    effRateLimitMax (loadEnvFromVault "gateway-service" failRun emptyEnv).env = some 1000 ∧
    (loadEnvFromVault "gateway-service" failRun emptyEnv).env.PORT = some "3003" ∧
    (loadEnvFromVault "gateway-service" failRun emptyEnv).env.JWT_SECRET = none ∧
    (loadEnvFromVault "auth-service" failRun emptyEnv).ok = true ∧
    (loadEnvFromVault "auth-service" failRun emptyEnv).env.JWT_SECRET = some failRun.genSecret ∧
    (loadEnvFromVault "auth-service" failRun emptyEnv).env.GITHUB_CLIENT_ID
      = some "fallback-github-client-id" ∧
    (loadEnvFromVault "auth-service" failRun emptyEnv).env.INTRA_CLIENT_ID
      = some "fallback-intra-client-id" :=
  group_failures_resolve_to_fallbacks failRun
    "connect ECONNREFUSED" "connect ECONNREFUSED" "connect ECONNREFUSED"
    "connect ECONNREFUSED" "connect ECONNREFUSED"
    (by decide) rfl rfl rfl rfl rfl

/-- C4 counterexample: the never-healthy path does not apply every
group's fallback.  Against a dead store the API-policy group resolves to
the consumer default (rate limit 100, `CORS_ORIGIN` unset) instead of
the group's own fallback (1000, `*`) applied when the group fetch fails
against a healthy store; likewise the auth identity gets no OAuth
fallback cluster on the dead path. -/
theorem dead_store_skips_group_fallbacks :
    effRateLimitMax (loadEnvFromVault "gateway-service" deadRun emptyEnv).env = some 100 ∧
    effRateLimitMax (loadEnvFromVault "gateway-service" failRun emptyEnv).env = some 1000 ∧
    (loadEnvFromVault "gateway-service" deadRun emptyEnv).env.RATE_LIMIT_MAX = none ∧
    (loadEnvFromVault "gateway-service" deadRun emptyEnv).env.CORS_ORIGIN = none ∧
    (loadEnvFromVault "gateway-service" failRun emptyEnv).env.CORS_ORIGIN = some "*" ∧
    (loadEnvFromVault "auth-service" deadRun emptyEnv).env.GITHUB_CLIENT_ID = none ∧
    (loadEnvFromVault "auth-service" failRun emptyEnv).env.GITHUB_CLIENT_ID
      = some "fallback-github-client-id" ∧
    ¬ (100 : Int) = 1000 := by
  decide

/-- C4 (amended): if the store never reports healthy within the 60-probe
wait, the resolver issues no group fetch at all, returns `false` from
its outer catch without throwing (the bootstrap continues), and installs
only the database, port and — for the auth identity — JWT fallbacks; the
remaining groups are left unset, so their values come from the
consumers' own defaults (`*` for CORS but rate limit 100, not the group
fallback 1000). -/
theorem dead_store_resolves_without_fetches (run : VaultRun)
    (hdead : ∀ i, run.health i = false) :
    (loadEnvFromVault "gateway-service" run emptyEnv).fetches = [] ∧
    (loadEnvFromVault "gateway-service" run emptyEnv).ok = false ∧
    (loadEnvFromVault "gateway-service" run emptyEnv).env.DATABASE_URL = some dbFallbackUrl ∧
    (loadEnvFromVault "gateway-service" run emptyEnv).env.PORT = some "3003" ∧
    (loadEnvFromVault "gateway-service" run emptyEnv).env.RATE_LIMIT_MAX = none ∧
    effRateLimitMax (loadEnvFromVault "gateway-service" run emptyEnv).env = some 100 ∧
    (loadEnvFromVault "gateway-service" run emptyEnv).env.CORS_ORIGIN = none ∧
    effCorsOrigin (loadEnvFromVault "gateway-service" run emptyEnv).env = "*" ∧
    effAuthUrl (loadEnvFromVault "gateway-service" run emptyEnv).env = "http://auth-service:3000" ∧
    (loadEnvFromVault "auth-service" run emptyEnv).fetches = [] ∧
    (loadEnvFromVault "auth-service" run emptyEnv).env.JWT_SECRET = some run.genSecret := by
  have hav : waitForVault run.health = false := by
    rw [waitForVault, List.any_eq_false]
    intro x _
    simp [hdead x]
  simp only [loadEnvFromVault]
  rw [hav]
  simp [outerCatchStep, portMap, jwtFallback, jsTruthy, jsOr, emptyEnv, effAuthUrl,
        effCorsOrigin, effRateLimitMax, jsParseInt, decDigits, dbFallbackUrl]

/-- Witness for the amended dead-store statement. -/
theorem dead_store_resolves_without_fetches_witness :
    (loadEnvFromVault "gateway-service" deadRun emptyEnv).fetches = [] ∧
    (loadEnvFromVault "gateway-service" deadRun emptyEnv).ok = false ∧
    (loadEnvFromVault "gateway-service" deadRun emptyEnv).env.DATABASE_URL = some dbFallbackUrl ∧
    (loadEnvFromVault "gateway-service" deadRun emptyEnv).env.PORT = some "3003" ∧
    (loadEnvFromVault "gateway-service" deadRun emptyEnv).env.RATE_LIMIT_MAX = none ∧
    effRateLimitMax (loadEnvFromVault "gateway-service" deadRun emptyEnv).env = some 100 ∧
    (loadEnvFromVault "gateway-service" deadRun emptyEnv).env.CORS_ORIGIN = none ∧
    effCorsOrigin (loadEnvFromVault "gateway-service" deadRun emptyEnv).env = "*" ∧
    effAuthUrl (loadEnvFromVault "gateway-service" deadRun emptyEnv).env = "http://auth-service:3000" ∧
    (loadEnvFromVault "auth-service" deadRun emptyEnv).fetches = [] ∧
    (loadEnvFromVault "auth-service" deadRun emptyEnv).env.JWT_SECRET = some deadRun.genSecret :=
  dead_store_resolves_without_fetches deadRun (fun _ => rfl)

/-- Witness for the amended invalid-response statement at the source
default retryCount. -/
theorem invalid_response_retried_to_exhaustion_witness :
    (getSecret (fun _ => (Except.error ("Invalid JSON response: " ++ "<html>") : MakeRequest JwtSecrets)) vaultRetryCount).attempts = vaultRetryCount ∧
    (getSecret (fun _ => (Except.error ("Invalid JSON response: " ++ "<html>") : MakeRequest JwtSecrets)) vaultRetryCount).result
      = .error ("Invalid JSON response: " ++ "<html>") :=
  invalid_response_retried_to_exhaustion vaultRetryCount "<html>" (by decide)

/-- C7: the JWT group is fetched only when the resolving identity is
auth-service — the gateway identity issues no JWT fetch and leaves JWT
material untouched — and when the auth identity receives a JWT secret
shorter than 32 characters, validation fails and the freshly generated
secret (at least 32 characters, hence different from the short value) is
installed instead. -/
theorem jwt_group_identity_gated (run : VaultRun) (env : Env) (j : JwtSecrets) (s : String)
    (hav : waitForVault run.health = true)
    (hjwt : run.jwt = .ok j) (hsec : j.secret = some s)
    (hshort : sLen s < 32) (hgen : 32 ≤ sLen run.genSecret) :
    (loadEnvFromVault "gateway-service" run env).fetches
      = ["database/config", "services/urls", "secrets/api"] ∧
    (loadEnvFromVault "gateway-service" run env).env.JWT_SECRET = env.JWT_SECRET ∧
    (loadEnvFromVault "auth-service" run env).fetches
      = ["database/config", "services/urls", "secrets/jwt", "secrets/oauth", "secrets/api"] ∧
    (loadEnvFromVault "auth-service" run env).env.JWT_SECRET = some run.genSecret ∧
    ¬ run.genSecret = s := by
  obtain ⟨_, _, _, _, _, hdbJ⟩ := dbStep_frame run.db env
  obtain ⟨_, hurlJ⟩ := urlsStep_frame run.urls (dbStep run.db env)
  refine ⟨?_, ?_, ?_, ?_, ?_⟩
  · simp only [loadEnvFromVault]
    rw [hav]
    simp
  · simp only [loadEnvFromVault]
    rw [hav]
    simp only [if_true]
    obtain ⟨_, _, _, _, _, hapiJ⟩ :=
      apiStep_frame run.api (urlsStep run.urls (dbStep run.db env))
    obtain ⟨_, _, _, _, _, hportJ⟩ :=
      portStep_frame "gateway-service" (apiStep run.api (urlsStep run.urls (dbStep run.db env)))
    simp only [show ("gateway-service" == "auth-service") = false from rfl, Bool.false_eq_true,
      if_false]
    rw [hportJ, hapiJ, hurlJ, hdbJ]
  · simp only [loadEnvFromVault]
    rw [hav]
    simp
  · simp only [loadEnvFromVault]
    rw [hav]
    simp only [if_true, show ("auth-service" == "auth-service") = true from rfl]
    have hjstep : (jwtStep run.jwt run.genSecret (urlsStep run.urls (dbStep run.db env))).JWT_SECRET
        = some run.genSecret := by
      rw [hjwt]
      simp only [jwtStep, hsec]
      rw [if_neg (by omega)]
      simp [jwtFallback]
    have hoJ := oauthStep_frame run.oauth
      (jwtStep run.jwt run.genSecret (urlsStep run.urls (dbStep run.db env)))
    obtain ⟨_, _, _, _, _, hapiJ⟩ := apiStep_frame run.api
      (oauthStep run.oauth (jwtStep run.jwt run.genSecret (urlsStep run.urls (dbStep run.db env))))
    obtain ⟨_, _, _, _, _, hportJ⟩ := portStep_frame "auth-service" (apiStep run.api
      (oauthStep run.oauth (jwtStep run.jwt run.genSecret (urlsStep run.urls (dbStep run.db env)))))
    rw [hportJ, hapiJ, hoJ, hjstep]
  · intro heq
    rw [heq] at hgen
    omega

/-- Witness for the JWT identity gate: the 10-character secret run. -/
theorem jwt_group_identity_gated_witness :
    (loadEnvFromVault "gateway-service" shortJwtRun emptyEnv).fetches
      = ["database/config", "services/urls", "secrets/api"] ∧
    (loadEnvFromVault "gateway-service" shortJwtRun emptyEnv).env.JWT_SECRET = emptyEnv.JWT_SECRET ∧
    (loadEnvFromVault "auth-service" shortJwtRun emptyEnv).fetches
      = ["database/config", "services/urls", "secrets/jwt", "secrets/oauth", "secrets/api"] ∧
    (loadEnvFromVault "auth-service" shortJwtRun emptyEnv).env.JWT_SECRET
      = some shortJwtRun.genSecret ∧
    ¬ shortJwtRun.genSecret = "short10sec" :=
  jwt_group_identity_gated shortJwtRun emptyEnv
    { secret := some "short10sec", algorithm := some "HS256", expiration := some "24h" }
    "short10sec" (by decide) rfl rfl (by decide) (by decide)

/-- C10: under the gateway identity with a successful service-URL fetch,
each of the four mapped environment variables receives the fetched entry
exactly when that entry is present and starts with `http://` or
`https://`, and keeps its previous value otherwise; the unmapped
`FRONT_SERVICE_URL` is never written. -/
theorem service_url_validation_frame (env : Env) (run : VaultRun) (u : ServiceUrls)
    (hav : waitForVault run.health = true) (hurls : run.urls = .ok u) :
    (loadEnvFromVault "gateway-service" run env).env.AUTH_SERVICE_URL
      = assignUrl env.AUTH_SERVICE_URL u.auth_service_url ∧
    (loadEnvFromVault "gateway-service" run env).env.USER_SERVICE_URL
      = assignUrl env.USER_SERVICE_URL u.user_service_url ∧
    (loadEnvFromVault "gateway-service" run env).env.GAME_SERVICE_URL
      = assignUrl env.GAME_SERVICE_URL u.game_service_url ∧
    (loadEnvFromVault "gateway-service" run env).env.GATEWAY_SERVICE_URL
      = assignUrl env.GATEWAY_SERVICE_URL u.gateway_service_url ∧
    (loadEnvFromVault "gateway-service" run env).env.FRONT_SERVICE_URL
      = env.FRONT_SERVICE_URL ∧
    (∀ c : Option String, assignUrl c none = c) ∧
    (∀ (c : Option String) (v : String),
      assignUrl c (some v)
        = if sLeadsWith "http://" v || sLeadsWith "https://" v then some v else c) := by
  obtain ⟨hdbA, hdbU, hdbG, hdbW, hdbF, _⟩ := dbStep_frame run.db env
  obtain ⟨hapiA, hapiU, hapiG, hapiW, hapiF, _⟩ :=
    apiStep_frame run.api (urlsStep run.urls (dbStep run.db env))
  obtain ⟨hpA, hpU, hpG, hpW, hpF, _⟩ :=
    portStep_frame "gateway-service" (apiStep run.api (urlsStep run.urls (dbStep run.db env)))
  have hload : (loadEnvFromVault "gateway-service" run env).env
      = portStep "gateway-service" (apiStep run.api (urlsStep run.urls (dbStep run.db env))) := by
    simp only [loadEnvFromVault]
    rw [hav]
    simp
  refine ⟨?_, ?_, ?_, ?_, ?_, fun c => rfl, fun c v => ?_⟩
  · rw [hload, hpA, hapiA, hurls]
    simp [urlsStep, hdbA]
  · rw [hload, hpU, hapiU, hurls]
    simp [urlsStep, hdbU]
  · rw [hload, hpG, hapiG, hurls]
    simp [urlsStep, hdbG]
  · rw [hload, hpW, hapiW, hurls]
    simp [urlsStep, hdbW]
  · rw [hload, hpF, hapiF, hurls]
    simp [urlsStep, hdbF]
  · rfl

/-- Witness for the URL validation frame: a run whose fetched bundle has
one well-formed http entry, one https entry, one malformed entry and one
missing entry, against an environment with a pre-existing value. -/
theorem service_url_validation_frame_witness :
    (loadEnvFromVault "gateway-service"
        { health := fun _ => true
          db := .error "connect ECONNREFUSED"
          urls := .ok { auth_service_url := some "http://auth-service:3000"
                        user_service_url := some "https://user.example"
                        game_service_url := some "garbage-not-a-url"
                        gateway_service_url := none }
          jwt := .error "connect ECONNREFUSED"
          oauth := .error "connect ECONNREFUSED"
          api := .error "connect ECONNREFUSED"
          genSecret := "R4nd0mR4nd0mR4nd0mR4nd0mR4nd0m32" }
        { GAME_SERVICE_URL := some "http://kept-game:3002"
          GATEWAY_SERVICE_URL := some "http://kept-gateway:3003"
          FRONT_SERVICE_URL := some "http://kept-front:3004" }).env.AUTH_SERVICE_URL
      = some "http://auth-service:3000" ∧
    (loadEnvFromVault "gateway-service"
        { health := fun _ => true
          db := .error "connect ECONNREFUSED"
          urls := .ok { auth_service_url := some "http://auth-service:3000"
                        user_service_url := some "https://user.example"
                        game_service_url := some "garbage-not-a-url"
                        gateway_service_url := none }
          jwt := .error "connect ECONNREFUSED"
          oauth := .error "connect ECONNREFUSED"
          api := .error "connect ECONNREFUSED"
          genSecret := "R4nd0mR4nd0mR4nd0mR4nd0mR4nd0m32" }
        { GAME_SERVICE_URL := some "http://kept-game:3002"
          GATEWAY_SERVICE_URL := some "http://kept-gateway:3003"
          FRONT_SERVICE_URL := some "http://kept-front:3004" }).env.USER_SERVICE_URL
      = some "https://user.example" ∧
    (loadEnvFromVault "gateway-service"
        { health := fun _ => true
          db := .error "connect ECONNREFUSED"
          urls := .ok { auth_service_url := some "http://auth-service:3000"
                        user_service_url := some "https://user.example"
                        game_service_url := some "garbage-not-a-url"
                        gateway_service_url := none }
          jwt := .error "connect ECONNREFUSED"
          oauth := .error "connect ECONNREFUSED"
          api := .error "connect ECONNREFUSED"
          genSecret := "R4nd0mR4nd0mR4nd0mR4nd0mR4nd0m32" }
        { GAME_SERVICE_URL := some "http://kept-game:3002"
          GATEWAY_SERVICE_URL := some "http://kept-gateway:3003"
          FRONT_SERVICE_URL := some "http://kept-front:3004" }).env.GAME_SERVICE_URL
      = some "http://kept-game:3002" ∧
    (loadEnvFromVault "gateway-service"
        { health := fun _ => true
          db := .error "connect ECONNREFUSED"
          urls := .ok { auth_service_url := some "http://auth-service:3000"
                        user_service_url := some "https://user.example"
                        game_service_url := some "garbage-not-a-url"
                        gateway_service_url := none }
          jwt := .error "connect ECONNREFUSED"
          oauth := .error "connect ECONNREFUSED"
          api := .error "connect ECONNREFUSED"
          genSecret := "R4nd0mR4nd0mR4nd0mR4nd0mR4nd0m32" }
        { GAME_SERVICE_URL := some "http://kept-game:3002"
          GATEWAY_SERVICE_URL := some "http://kept-gateway:3003"
          FRONT_SERVICE_URL := some "http://kept-front:3004" }).env.GATEWAY_SERVICE_URL
      = some "http://kept-gateway:3003" ∧
    (loadEnvFromVault "gateway-service"
        { health := fun _ => true
          db := .error "connect ECONNREFUSED"
          urls := .ok { auth_service_url := some "http://auth-service:3000"
                        user_service_url := some "https://user.example"
                        game_service_url := some "garbage-not-a-url"
                        gateway_service_url := none }
          jwt := .error "connect ECONNREFUSED"
          oauth := .error "connect ECONNREFUSED"
          api := .error "connect ECONNREFUSED"
          genSecret := "R4nd0mR4nd0mR4nd0mR4nd0mR4nd0m32" }
        { GAME_SERVICE_URL := some "http://kept-game:3002"
          GATEWAY_SERVICE_URL := some "http://kept-gateway:3003"
          FRONT_SERVICE_URL := some "http://kept-front:3004" }).env.FRONT_SERVICE_URL
      = some "http://kept-front:3004" := by
  have h := service_url_validation_frame
    { GAME_SERVICE_URL := some "http://kept-game:3002"
      GATEWAY_SERVICE_URL := some "http://kept-gateway:3003"
      FRONT_SERVICE_URL := some "http://kept-front:3004" }
    { health := fun _ => true
      db := .error "connect ECONNREFUSED"
      urls := .ok { auth_service_url := some "http://auth-service:3000"
                    user_service_url := some "https://user.example"
                    game_service_url := some "garbage-not-a-url"
                    gateway_service_url := none }
      jwt := .error "connect ECONNREFUSED"
      oauth := .error "connect ECONNREFUSED"
      api := .error "connect ECONNREFUSED"
      genSecret := "R4nd0mR4nd0mR4nd0mR4nd0mR4nd0m32" }
    { auth_service_url := some "http://auth-service:3000"
      user_service_url := some "https://user.example"
      game_service_url := some "garbage-not-a-url"
      gateway_service_url := none }
    (by decide) rfl
  refine ⟨?_, ?_, ?_, ?_, ?_⟩
  · rw [h.1]
    decide
  · rw [h.2.1]
    decide
  · rw [h.2.2.1]
    decide
  · rw [h.2.2.2.1]
    decide
  · rw [h.2.2.2.2.1]

/-! Rate limiting. -/

/-- One admission step for a key already counted in the current window:
the count increments, the decision is `count + 1 ≤ maxReq`. -/
theorem rlStep_same_window (maxReq windowMs : Nat) (key : String) (t c : Nat) (store : RateStore)
    (hst : store key = some ⟨t / windowMs, c⟩) :
    rlStep maxReq windowMs key t store
      = (decide (c + 1 ≤ maxReq),
         fun k => if k == key then some ⟨t / windowMs, c + 1⟩ else store k) := by
  simp [rlStep, rlAdmit, hst]

/-- One admission step for a key with no stored state: the window is
installed and the count starts at 1. -/
theorem rlStep_fresh (maxReq windowMs : Nat) (key : String) (t : Nat) (store : RateStore)
    (hst : store key = none) :
    rlStep maxReq windowMs key t store
      = (decide (1 ≤ maxReq),
         fun k => if k == key then some ⟨t / windowMs, 1⟩ else store k) := by
  simp [rlStep, rlAdmit, hst]

/-- One admission step for a key stored under a different window: the
state resets and the count restarts at 1. -/
theorem rlStep_new_window (maxReq windowMs : Nat) (key : String) (t w c : Nat) (store : RateStore)
    (hst : store key = some ⟨w, c⟩) (hw : (w == t / windowMs) = false) :
    rlStep maxReq windowMs key t store
      = (decide (1 ≤ maxReq),
         fun k => if k == key then some ⟨t / windowMs, 1⟩ else store k) := by
  simp [rlStep, rlAdmit, hst, hw]

/-- Running `n` further same-window requests on a key already counted
`c` times admits all of them while `c + n` stays within the bound, ends
with count `c + n`, and leaves every other key's state untouched. -/
theorem rlRun_same_window (maxReq windowMs : Nat) (key : String) (t : Nat) :
    ∀ (n c : Nat) (store : RateStore),
      store key = some ⟨t / windowMs, c⟩ → c + n ≤ maxReq →
      (rlRun maxReq windowMs key (List.replicate n t) store).1 = List.replicate n true ∧
      (rlRun maxReq windowMs key (List.replicate n t) store).2 key
        = some ⟨t / windowMs, c + n⟩ ∧
      ∀ k, (k == key) = false →
        (rlRun maxReq windowMs key (List.replicate n t) store).2 k = store k := by
  intro n
  induction n with
  | zero =>
    intro c store hst _
    simp [rlRun, hst]
  | succ m ih =>
    intro c store hst hle
    have hstep := rlStep_same_window maxReq windowMs key t c store hst
    have hst1 : (fun k => if k == key then some (RateState.mk (t / windowMs) (c + 1)) else store k) key
        = some ⟨t / windowMs, c + 1⟩ := by simp
    have hrec := ih (c + 1)
      (fun k => if k == key then some (RateState.mk (t / windowMs) (c + 1)) else store k)
      hst1 (by omega)
    have hadm : decide (c + 1 ≤ maxReq) = true := by
      rw [decide_eq_true_iff]
      omega
    rw [List.replicate_succ]
    simp only [rlRun, hstep]
    refine ⟨?_, ?_, ?_⟩
    · rw [List.replicate_succ]
      rw [hadm]
      simp only [List.cons.injEq]
      exact ⟨trivial, hrec.1⟩
    · have h21 := hrec.2.1
      rw [show c + 1 + m = c + (m + 1) from by omega] at h21
      exact h21
    · intro k hk
      rw [hrec.2.2 k hk]
      simp [hk]

/-- C2: admission is counted per client key in fixed windows of
`windowMs`: from a fresh key, the first `maxReq` requests inside one
window are all admitted, the `(maxReq + 1)`-th request in that window is
rejected with HTTP 429 and is not forwarded to any upstream, a request
in a later window is admitted again, and no other key's state is
touched. -/
theorem fixed_window_rate_limit (maxReq windowMs t tNext : Nat) (key : String)
    (store : RateStore) (table : List RouteEntry) (req : HttpRequest)
    (hmax : 1 ≤ maxReq) (hfresh : store key = none)
    (hroll : t / windowMs ≠ tNext / windowMs) :
    (rlRun maxReq windowMs key (List.replicate maxReq t) store).1
      = List.replicate maxReq true ∧
    (handleRequest maxReq windowMs t key
        (rlRun maxReq windowMs key (List.replicate maxReq t) store).2 table req).1
      = GatewayOutcome.limited 429 ∧
    (rlStep maxReq windowMs key tNext
        (handleRequest maxReq windowMs t key
          (rlRun maxReq windowMs key (List.replicate maxReq t) store).2 table req).2).1
      = true ∧
    (∀ k, (k == key) = false →
      (rlRun maxReq windowMs key (List.replicate maxReq t) store).2 k = store k) := by
  obtain ⟨m, rfl⟩ : ∃ m, maxReq = m + 1 := ⟨maxReq - 1, by omega⟩
  have hstep0 := rlStep_fresh (m + 1) windowMs key t store hfresh
  have hst1 : (fun k => if k == key then some (RateState.mk (t / windowMs) 1) else store k) key
      = some ⟨t / windowMs, 1⟩ := by simp
  have hrec := rlRun_same_window (m + 1) windowMs key t m 1
    (fun k => if k == key then some (RateState.mk (t / windowMs) 1) else store k)
    hst1 (by omega)
  have hadm0 : decide (1 ≤ m + 1) = true := by
    rw [decide_eq_true_iff]
    omega
  have hrunFst : (rlRun (m + 1) windowMs key (List.replicate (m + 1) t) store).1
      = List.replicate (m + 1) true := by
    rw [List.replicate_succ]
    simp only [rlRun, hstep0]
    rw [List.replicate_succ, hadm0]
    simp only [List.cons.injEq]
    exact ⟨trivial, hrec.1⟩
  have hrunKey : (rlRun (m + 1) windowMs key (List.replicate (m + 1) t) store).2 key
      = some ⟨t / windowMs, m + 1⟩ := by
    rw [List.replicate_succ]
    simp only [rlRun, hstep0]
    have h21 := hrec.2.1
    rw [show 1 + m = m + 1 from by omega] at h21
    exact h21
  have hrunFrame : ∀ k, (k == key) = false →
      (rlRun (m + 1) windowMs key (List.replicate (m + 1) t) store).2 k = store k := by
    intro k hk
    rw [List.replicate_succ]
    simp only [rlRun, hstep0]
    rw [hrec.2.2 k hk]
    simp [hk]
  have hstepOver := rlStep_same_window (m + 1) windowMs key t (m + 1)
    (rlRun (m + 1) windowMs key (List.replicate (m + 1) t) store).2 hrunKey
  have hrej : decide (m + 1 + 1 ≤ m + 1) = false := by
    rw [decide_eq_false_iff_not]
    omega
  have hhandle : handleRequest (m + 1) windowMs t key
      (rlRun (m + 1) windowMs key (List.replicate (m + 1) t) store).2 table req
      = (GatewayOutcome.limited 429,
         fun k => if k == key then some (RateState.mk (t / windowMs) (m + 1 + 1))
           else (rlRun (m + 1) windowMs key (List.replicate (m + 1) t) store).2 k) := by
    simp only [handleRequest, hstepOver, hrej]
    simp
  refine ⟨hrunFst, ?_, ?_, hrunFrame⟩
  · rw [hhandle]
  · rw [hhandle]
    have hstNext : (fun k => if k == key then some (RateState.mk (t / windowMs) (m + 1 + 1))
        else (rlRun (m + 1) windowMs key (List.replicate (m + 1) t) store).2 k) key
        = some ⟨t / windowMs, m + 1 + 1⟩ := by simp
    have hwne : ((t / windowMs) == (tNext / windowMs)) = false := by
      rw [beq_eq_false_iff_ne]
      exact hroll
    have hstepNext := rlStep_new_window (m + 1) windowMs key tNext (t / windowMs) (m + 1 + 1)
      (fun k => if k == key then some (RateState.mk (t / windowMs) (m + 1 + 1))
        else (rlRun (m + 1) windowMs key (List.replicate (m + 1) t) store).2 k)
      hstNext hwne
    rw [hstepNext]
    exact hadm0

/-- Witness for the fixed-window statement: bound 2, window 10 ms, three
requests at time 5 and one at time 15 for one key, another key left
alone. -/
theorem fixed_window_rate_limit_witness :
    (rlRun 2 10 "1.2.3.4" (List.replicate 2 5) (fun _ => none)).1 = List.replicate 2 true ∧
    (handleRequest 2 10 5 "1.2.3.4"
        (rlRun 2 10 "1.2.3.4" (List.replicate 2 5) (fun _ => none)).2
        (routeTable emptyEnv) { method := "GET", path := "/auth/login" }).1
      = GatewayOutcome.limited 429 ∧
    (rlStep 2 10 "1.2.3.4" 15
        (handleRequest 2 10 5 "1.2.3.4"
          (rlRun 2 10 "1.2.3.4" (List.replicate 2 5) (fun _ => none)).2
          (routeTable emptyEnv) { method := "GET", path := "/auth/login" }).2).1 = true ∧
    (rlRun 2 10 "1.2.3.4" (List.replicate 2 5) (fun _ => none)).2 "9.9.9.9" = none := by
  have h := fixed_window_rate_limit 2 10 5 15 "1.2.3.4" (fun _ => none)
    (routeTable emptyEnv) { method := "GET", path := "/auth/login" }
    (by decide) rfl (by decide)
  exact ⟨h.1, h.2.1, h.2.2.1, h.2.2.2 "9.9.9.9" (by decide)⟩

/-! Startup waits and the health endpoint. -/

/-- A never-up backend keeps the `nc` loop probing forever: no fuel
bound ever observes it exit. -/
theorem ncWaitFrom_never_up (fuel : Nat) :
    ∀ i, ncWaitFrom (fun _ => false) i fuel = none := by
  induction fuel with
  | zero => intro i; rfl
  | succ m ih =>
    intro i
    simp only [ncWaitFrom, if_false]
    exact ih (i + 1)

/-- C8 counterexample: with a backend that never becomes reachable, the
entrypoint's `nc` wait loop is still probing after 1000 probes — beyond
the claimed 60-attempt budget — so startup has not proceeded. -/
theorem nc_wait_exceeds_claimed_budget :
    ncWait (fun _ => false) 1000 = none ∧ 60 < 1000 := by
  exact ⟨ncWaitFrom_never_up 1000 0, by omega⟩

/-- C8 (amended): only the vault-service wait is bounded — against a
store that never responds it performs exactly 60 probes and the script
proceeds anyway — while the backend `nc` loops are unbounded: a
never-reachable backend keeps the loop probing past every cutoff, and
the loop exits (immediately) only once its probe succeeds. -/
theorem entrypoint_wait_budgets :
    (∀ fuel, ncWait (fun _ => false) fuel = none) ∧
    vaultEntryWait (fun _ => false) = (60, false) ∧
    (∀ up : Nat → Bool, up 0 = true → ∀ fuel, 1 ≤ fuel → ncWait up fuel = some 1) := by
  refine ⟨fun fuel => ncWaitFrom_never_up fuel 0, by decide, ?_⟩
  intro up hup fuel hfuel
  obtain ⟨m, rfl⟩ : ∃ m, fuel = m + 1 := ⟨fuel - 1, by omega⟩
  simp [ncWait, ncWaitFrom, hup]

/-- C9 counterexample: the `/health` reply is identical whether the
secret store is actually reachable at call time or not — the handler
performs no probe — and with the store down it still reports the
constant status `healthy`. -/
theorem health_reply_ignores_store_state :
    healthHandler emptyEnv "2024-01-01T00:00:00.000Z" false
      = healthHandler emptyEnv "2024-01-01T00:00:00.000Z" true ∧
    (healthHandler emptyEnv "2024-01-01T00:00:00.000Z" false).status = "healthy" ∧
    (healthHandler emptyEnv "2024-01-01T00:00:00.000Z" false).gatewayStatus = "healthy" := by
  decide

/-- C9 (amended): the `/health` handler is a pure function of the
current environment and the call's clock reading: the reply is rebuilt
on every call (its timestamps are the call's own clock value), nothing
is mutated, and no probe is performed — the reply does not depend on the
store's actual reachability and always reports the constant `healthy`
status with the configured service URLs. -/
theorem health_snapshot_recomputed_pure (e : Env) (now : String) (b bAlt : Bool) :
    healthHandler e now b = healthHandler e now bAlt ∧
    (healthHandler e now b).status = "healthy" ∧
    (healthHandler e now b).gatewayStatus = "healthy" ∧
    (healthHandler e now b).timestamp = now ∧
    (healthHandler e now b).gatewayTimestamp = now ∧
    (healthHandler e now b).authUrl = effAuthUrl e ∧
    (healthHandler e now b).userUrl = effUserUrl e ∧
    (healthHandler e now b).gameUrl = effGameUrl e ∧
    (healthHandler e now b).frontUrl = effFrontUrl e ∧
    (healthHandler e now b).vaultUrl = effVaultUrl e := by
  exact ⟨rfl, rfl, rfl, rfl, rfl, rfl, rfl, rfl, rfl, rfl⟩

end Gateway
